import Mathlib

/-!
Verification of the multi-region disaster-recovery core: a shallow
embedding of the repository `multi-region-dr-system` — the failover
orchestrator, the health checker, the data-consistency validator and
the traffic router lambdas.  External service calls (Route 53,
DynamoDB, SNS, CloudWatch) are modelled as explicit inputs (`Except`
values for calls that may raise) and explicit effect flags in the
results; wall-clock readings are explicit numeric parameters.
-/

namespace DR

/-! String helpers: the Python substring membership test. -/

/-- Decides whether the first list is a prefix of the second
(Python string slicing used implicitly by `in`). -/
def listPrefixOf : List Char → List Char → Bool
  | [], _ => true
  | _ :: _, [] => false
  | a :: t, b :: u => if a = b then listPrefixOf t u else false

/-- Decides whether `needle` occurs contiguously inside `hay`
(the Python substring membership test on strings). -/
def listContains (needle : List Char) : List Char → Bool
  | [] => listPrefixOf needle []
  | h :: t => listPrefixOf needle (h :: t) || listContains needle t

/-- Membership test of Python strings: whether needle occurs in hay. -/
def strIn (needle hay : String) : Bool :=
  listContains needle.toList hay.toList

/-- Lower-casing of Python strings. -/
def strLower (s : String) : String :=
  String.mk (s.toList.map Char.toLower)

/-! ## Failover orchestrator (`lambda/failover-orchestrator/index.py`)

Environment defaults: `PRIMARY_REGION = 'ap-south-1'`,
`SECONDARY_REGION = 'ap-southeast-1'`. -/

def PRIMARY_REGION : String := "ap-south-1"

def SECONDARY_REGION : String := "ap-southeast-1"

/-- One Route 53 health check as seen by `verify_region_health`:
its fully qualified domain name and the result of
`get_health_check_status` for it — either the list of checker
observation statuses, or an error when that call raises. -/
structure HealthCheck where
  fqdn : String
  observations : Except Unit (List String)
  deriving Repr

/-- The `for hc in health_checks` loop body of `verify_region_health`:
for each health check whose FQDN contains the region, query its status
(propagating a raised exception) and return `true` on the first
observation reporting `Success`; fall through to the next check
otherwise, and to `false` after the last one. -/
def verifyLoop (region : String) : List HealthCheck → Except Unit Bool
  | [] => .ok false
  | hc :: rest =>
    if strIn region hc.fqdn then
      match hc.observations with
      | .error e => .error e
      | .ok obs =>
        if obs.any (fun s => s = "Success") then .ok true
        else verifyLoop region rest
    else verifyLoop region rest

/-- Function `verify_region_health(region)`: `list_health_checks` may itself
raise (modelled by the `Except` input); any exception anywhere in the
`try` block is caught and turned into `False`. -/
def verify_region_health (region : String)
    (listResult : Except Unit (List HealthCheck)) : Bool :=
  match listResult with
  | .error _ => false
  | .ok hcs =>
    match verifyLoop region hcs with
    | .error _ => false
    | .ok b => b

/-- Observable effects of one `initiate_failover` invocation.
`update_health_checks` is the traffic-redirect step (§4.3 step 4);
`raised` records whether the call re-raises to its caller;
`failureMessage` is the body of the `FAILOVER FAILED` message when one
is sent.  The source performs no reads or writes of any shared store
during failover. -/
structure FailoverResult where
  redirectInvoked : Bool
  rto_s : Option Nat
  metricsLogged : Bool
  successNotified : Bool
  failureMessage : Option String
  raised : Bool
  deriving Repr, DecidableEq

/-- The error text of the exception raised when target verification
fails. -/
def unhealthyTargetError (target : String) : String :=
  "Target region " ++ target ++ " is not healthy"

/-- Function `initiate_failover(failed_region, target_region)`.  The only
statement in its `try` block that can raise is the explicit
`raise Exception(...)` on a failed target-health verification
(`update_health_checks`, `log_failover_metrics` and the SNS publish
each swallow their own exceptions).  On that exception the `except`
block publishes `Failover failed: <error>` and re-raises.
`startT`/`endT` are the two `time.time()` readings (seconds). -/
def initiate_failover (target : String)
    (listResult : Except Unit (List HealthCheck))
    (startT endT : Nat) : FailoverResult :=
  if verify_region_health target listResult then
    { redirectInvoked := true
      rto_s := some (endT - startT)
      metricsLogged := true
      successNotified := true
      failureMessage := none
      raised := false }
  else
    { redirectInvoked := false
      rto_s := none
      metricsLogged := false
      successNotified := false
      failureMessage := some ("Failover failed: " ++ unhealthyTargetError target)
      raised := true }

/-- A CloudWatch alarm message as consumed by `handle_alarm`. -/
structure Alarm where
  alarmName : String
  newState : String
  region : String
  deriving Repr, DecidableEq

/-- Result of `handle_alarm`: the failover attempt it launched, if
any, and whether a region-recovered message was published. -/
structure AlarmOutcome where
  failover : Option FailoverResult
  recoveryNotified : Bool
  deriving Repr, DecidableEq

/-- Function `handle_alarm(alarm_message)`: on `ALARM`, route to
`initiate_failover` by matching `mumbai`/`singapore` in the lowered
alarm name or the exact region; on `OK`, publish a recovery message. -/
def handle_alarm (listResult : Except Unit (List HealthCheck))
    (startT endT : Nat) (a : Alarm) : AlarmOutcome :=
  if a.newState = "ALARM" then
    if strIn "mumbai" (strLower a.alarmName) || a.region = PRIMARY_REGION then
      { failover := some (initiate_failover SECONDARY_REGION listResult startT endT)
        recoveryNotified := false }
    else if strIn "singapore" (strLower a.alarmName) || a.region = SECONDARY_REGION then
      { failover := some (initiate_failover PRIMARY_REGION listResult startT endT)
        recoveryNotified := false }
    else { failover := none, recoveryNotified := false }
  else if a.newState = "OK" then
    { failover := none, recoveryNotified := true }
  else { failover := none, recoveryNotified := false }

/-- What the lambda `handler` returns to the external scheduler. -/
structure HandlerOutcome where
  statusCode : Nat
  propagated : Bool
  deriving Repr, DecidableEq

/-- The orchestrator `handler` on an alarm event: the whole body sits
in a `try` whose `except Exception` returns a `statusCode 500`
response, so no exception — including the one re-raised by
`initiate_failover` — ever propagates out of the invocation. -/
def orchestrator_handler (listResult : Except Unit (List HealthCheck))
    (startT endT : Nat) (a : Alarm) : HandlerOutcome :=
  let out := handle_alarm listResult startT endT a
  match out.failover with
  | some r =>
    if r.raised then { statusCode := 500, propagated := false }
    else { statusCode := 200, propagated := false }
  | none => { statusCode := 200, propagated := false }

/-! ### Shared-store view of the orchestrator (claim C1)

`FailoverEvent` records with a `PENDING` outcome would live in the
shared replicated store, keyed by the ordered `(source, target)`
pair.  The orchestrator source performs no store operation at all, so
an invocation threads the store through unchanged. -/

/-- The shared replicated store, restricted to the keys relevant to
failover idempotency: the set of `(source, target)` pairs that
currently hold a `FailoverEvent` with `outcome = PENDING`. -/
structure Store where
  pendingEvents : List (String × String)
  deriving Repr, DecidableEq

/-- The store holding no `FailoverEvent` records. -/
def emptyStore : Store := { pendingEvents := [] }

/-- The function `initiate_failover` as a state transformer over the shared store:
the source contains no store read or write, so the store is returned
unchanged next to the invocation's effects. -/
def initiate_failover_st (target : String)
    (listResult : Except Unit (List HealthCheck))
    (startT endT : Nat) (s : Store) : Store × FailoverResult :=
  (s, initiate_failover target listResult startT endT)

/-- Run of `n` triggers of `initiate_failover` for the same
`(source, target)` pair run one after another against the shared
store, collecting every invocation's effects. -/
def runTriggers (target : String)
    (listResult : Except Unit (List HealthCheck))
    (startT endT : Nat) : Nat → Store → Store × List FailoverResult
  | 0, s => (s, [])
  | n + 1, s =>
    let p := initiate_failover_st target listResult startT endT s
    let q := runTriggers target listResult startT endT n p.1
    (q.1, p.2 :: q.2)

/-- How many of the collected invocations executed the traffic
redirect. -/
def countExecuted (rs : List FailoverResult) : Nat :=
  (rs.filter (fun r => r.redirectInvoked)).length

/-- A concrete Route 53 response under which the secondary region
verifies healthy: one health check whose FQDN names the region and
whose status query reports one `Success` observation. -/
def healthySecondaryEnv : Except Unit (List HealthCheck) :=
  .ok [{ fqdn := "app.ap-southeast-1.example.com"
         observations := .ok ["Success"] }]

/-! ## Health checker (`lambda/health-checker/index.py`)

One invocation performs a single strongly-consistent `get_item` probe
against DynamoDB (`check_dynamodb`); the lambda keeps no state between
invocations — there is no region-state record, no consecutive-failure
counter, and nothing is persisted. -/

/-- Result of `check_dynamodb()`: the probe either succeeds (status
`healthy` with a latency) or its exception is caught (status
`unhealthy` with the error string). -/
structure DynamoCheck where
  status : String
  latency_ms : Option Nat
  error : Option String
  deriving Repr, DecidableEq

/-- Function `check_dynamodb()`.  `sampleOk` is whether the `get_item` call
returns without raising, `latency` the measured round-trip in ms. -/
def check_dynamodb (sampleOk : Bool) (latency : Nat) : DynamoCheck :=
  if sampleOk then
    { status := "healthy", latency_ms := some latency, error := none }
  else
    { status := "unhealthy", latency_ms := none, error := some "error" }

/-- What one health-checker invocation reports. -/
structure HealthReport where
  overall_status : String
  alertSent : Bool
  statusCode : Nat
  deriving Repr, DecidableEq

/-- The health-checker `handler`: runs the single DynamoDB check,
declares `overall_status = 'healthy'` iff every check (there is one)
is healthy, and sends an SNS alert iff not. -/
def health_handler (sampleOk : Bool) (latency : Nat) : HealthReport :=
  let c := check_dynamodb sampleOk latency
  let allHealthy := c.status = "healthy"
  { overall_status := if allHealthy then "healthy" else "unhealthy"
    alertSent := !allHealthy
    statusCode := 200 }

/-- The status the health checker reports for sample `i` of a sample
sequence: each invocation is independent, so the report depends only
on that sample (there is no persisted `RegionState`). -/
def reportAt (samples : List Bool) (i : Nat) : String :=
  (health_handler (samples.getD i true) 0).overall_status

/-- Number of unsuccessful samples at the head of the list. -/
def leadingFailures : List Bool → Nat
  | [] => 0
  | b :: t => if b then 0 else leadingFailures t + 1

/-- Number of consecutive unsuccessful samples ending at the end of
the list (what a `consecutive_failure_count` would hold). -/
def trailingFailures (l : List Bool) : Nat :=
  leadingFailures l.reverse

/-- Value of `trailingFailures` over the samples up to and including index
`i`. -/
def consecFailsAt (samples : List Bool) (i : Nat) : Nat :=
  trailingFailures (samples.take (i + 1))

/-! ## Data-consistency validator
(`lambda/data-consistency-validator/index.py`)

The source file is truncated after the success branch of
`check_replication_lag`; the timeout tail of that function and the
remaining helpers are modelled from the spec where noted. -/

/-- Outcome label of a replication-lag probe. -/
inductive LagStatus where
  | success
  | timeout
  deriving Repr, DecidableEq

/-- Result of `check_replication_lag`, with explicit cleanup flags:
whether the marker item was deleted from the primary and from the
secondary region before returning. -/
structure LagResult where
  status : LagStatus
  lag_ms : Option Int
  deletedPrimary : Bool
  deletedSecondary : Bool
  reads : Nat
  deriving Repr, DecidableEq

/-- Constant `max_attempts = 10` in the polling loop of
`check_replication_lag`. -/
def max_attempts : Nat := 10

/-- The `for attempt in range(max_attempts)` loop of
`check_replication_lag`: a strongly-consistent `get_item` against the
secondary region per attempt; on first observation compute
`lag = now - write_time` (ms) and delete the marker from both regions.
`visible a` is whether the read at attempt `a` returns the item,
`clock a` the wall-clock reading (ms) taken on observing it.
Modelled from the spec: the source file is cut off inside the success
branch; per §4.2 the loop falls through to a `timeout` result after
`max_attempts` unsuccessful reads, deleting the marker from both
regions regardless of outcome. -/
def lagLoop (visible : Nat → Bool) (clock : Nat → Int) (writeTime : Int) :
    Nat → Nat → LagResult
  | _, 0 =>
    { status := .timeout
      lag_ms := none
      deletedPrimary := true
      deletedSecondary := true
      reads := 0 }
  | attempt, fuel + 1 =>
    if visible attempt then
      { status := .success
        lag_ms := some (clock attempt - writeTime)
        deletedPrimary := true
        deletedSecondary := true
        reads := 1 }
    else
      let r := lagLoop visible clock writeTime (attempt + 1) fuel
      { r with reads := r.reads + 1 }

/-- Function `check_replication_lag()`: write the uniquely-keyed marker at
`writeTime`, then poll the secondary region for it for at most
`max_attempts` attempts. -/
def check_replication_lag (visible : Nat → Bool) (clock : Nat → Int)
    (writeTime : Int) : LagResult :=
  lagLoop visible clock writeTime 0 max_attempts

/-- The three-level overall status of the validator. -/
inductive OverallStatus where
  | healthy
  | degraded
  | critical
  deriving Repr, DecidableEq

/-- Replication-lag threshold (ms) used by the status aggregation. -/
def LAG_THRESHOLD_MS : Int := 5000

/-- Whether a reported lag is present and under the threshold (an
absent lag — a timeout — never counts as under the threshold). -/
def lagUnderThreshold : Option Int → Bool
  | some v => v < LAG_THRESHOLD_MS
  | none => false

/-- Modelled from the spec: `determine_overall_status` lies beyond the
truncation point of the source file.  Per §4.2: `healthy` if the lag
probe succeeded under the 5000 ms threshold and no DIVERGED conflict
exists; `critical` if any unresolved DIVERGED conflict exists;
`degraded` otherwise (lag over threshold or probe timeout, without
divergence). -/
def determine_overall_status (lagStatus : LagStatus) (lag_ms : Option Int)
    (divergedConflicts : Nat) : OverallStatus :=
  if 0 < divergedConflicts then .critical
  else if lagStatus = .success ∧ lagUnderThreshold lag_ms = true then .healthy
  else .degraded

/-! ## Traffic router (`lambda/traffic-router/index.py`) -/

/-- Fate of `json.loads(event['body'])` when the event carries a
`body` field: either it parses (or already is a dict), or it raises. -/
inductive BodyParse where
  | ok
  | malformed
  deriving Repr, DecidableEq

/-- The parts of an ALB event the router `handler` inspects. -/
structure RouterEvent where
  body : Option BodyParse
  path : String
  httpMethod : String
  deriving Repr, DecidableEq

/-- An HTTP response, abstracted to its status code and the list of
keys of its JSON body. -/
structure RouterResponse where
  statusCode : Nat
  bodyFields : List String
  deriving Repr, DecidableEq

/-- Responses of the DynamoDB-backed CRUD sub-handlers (external to
the health-endpoint contract). -/
structure CrudEnv where
  getResp : RouterResponse
  postResp : RouterResponse
  putResp : RouterResponse
  deleteResp : RouterResponse
  deriving Repr, DecidableEq

/-- Function `health_check_response()`: status 200 with body keys exactly
`status`, `region`, `timestamp`. -/
def health_check_response : RouterResponse :=
  { statusCode := 200
    bodyFields := ["status", "region", "timestamp"] }

/-- The router `handler`: parse the body first (a malformed body
string raises and lands in the `except` branch returning 500), then
serve `/health`, then dispatch on the HTTP method. -/
def traffic_handler (env : CrudEnv) (ev : RouterEvent) : RouterResponse :=
  match ev.body with
  | some .malformed =>
    { statusCode := 500, bodyFields := ["error", "message", "region"] }
  | _ =>
    if ev.path = "/health" then health_check_response
    else if ev.httpMethod = "GET" then env.getResp
    else if ev.httpMethod = "POST" then env.postResp
    else if ev.httpMethod = "PUT" then env.putResp
    else if ev.httpMethod = "DELETE" then env.deleteResp
    else { statusCode := 405, bodyFields := ["error"] }

/-! Concrete inputs used by counterexamples and witnesses. -/

/-- An alarm reporting the primary region down, as CloudWatch would
send it. -/
def alarmPrimaryDown : Alarm :=
  { alarmName := "dr-primary-health-alarm"
    newState := "ALARM"
    region := "ap-south-1" }

/-- A constant wall clock reading 1500 ms. -/
def constClock : Nat → Int := fun _ => 1500

/-- A marker visible to the strongly-consistent read from the first
attempt on. -/
def alwaysVisible : Nat → Bool := fun _ => true

/-- CRUD sub-handler responses for a concrete router scenario. -/
def dummyCrud : CrudEnv :=
  { getResp := { statusCode := 200, bodyFields := [] }
    postResp := { statusCode := 201, bodyFields := [] }
    putResp := { statusCode := 200, bodyFields := [] }
    deleteResp := { statusCode := 200, bodyFields := [] } }

/-- A request for the health endpoint carrying a body string that
fails JSON parsing. -/
def malformedHealthEvent : RouterEvent :=
  { body := some BodyParse.malformed
    path := "/health"
    httpMethod := "GET" }

/-- A plain health-endpoint request without a body. -/
def healthEvent : RouterEvent :=
  { body := none
    path := "/health"
    httpMethod := "GET" }

/-! ## Helper lemmas -/

theorem listPrefixOf_self (l : List Char) : listPrefixOf l l = true := by
  induction l with
  | nil => rfl
  | cons a t ih => simp [listPrefixOf, ih]

theorem listContains_append_self (xs ys : List Char) :
    listContains ys (xs ++ ys) = true := by
  induction xs with
  | nil =>
    cases ys with
    | nil => rfl
    | cons a t => simp [listContains, listPrefixOf_self]
  | cons a t ih => simp [listContains, ih]

theorem strIn_append_right (a b : String) : strIn b (a ++ b) = true := by
  have h : (a ++ b).toList = a.toList ++ b.toList := rfl
  unfold strIn
  rw [h]
  exact listContains_append_self a.toList b.toList

theorem initiate_failover_healthy (target : String)
    (lr : Except Unit (List HealthCheck)) (s e : Nat)
    (h : verify_region_health target lr = true) :
    initiate_failover target lr s e =
      { redirectInvoked := true
        rto_s := some (e - s)
        metricsLogged := true
        successNotified := true
        failureMessage := none
        raised := false } := by
  simp [initiate_failover, h]

theorem initiate_failover_unhealthy (target : String)
    (lr : Except Unit (List HealthCheck)) (s e : Nat)
    (h : verify_region_health target lr = false) :
    initiate_failover target lr s e =
      { redirectInvoked := false
        rto_s := none
        metricsLogged := false
        successNotified := false
        failureMessage := some ("Failover failed: " ++ unhealthyTargetError target)
        raised := true } := by
  simp [initiate_failover, h]

/-! ## Claim C1 — failover idempotency guard -/

/-- C1, as stated, is false of the source: the orchestrator keeps no
`FailoverEvent` records and performs no create-if-absent, so two
overlapping triggers for the same `(source, target)` pair (their
invocations touch no shared state, hence interleave as sequential
composition) both execute the failover, and the shared store never
holds a `PENDING` event at all. -/
theorem C1_counterexample :
    ¬ (countExecuted
        (runTriggers SECONDARY_REGION healthySecondaryEnv 0 0 2 emptyStore).2 ≤ 1) ∧
    (runTriggers SECONDARY_REGION healthySecondaryEnv 0 0 2 emptyStore).1.pendingEvents
      = [] := by
  decide

/-- C1 (amended): the orchestrator implements no duplicate guard and
no store write — for every number `n` of triggers for the same pair
whose target verifies healthy, all `n` execute the redirect and the
shared store is left untouched; idempotency is delegated to the
external DNS/health-check infrastructure. -/
theorem C1_every_trigger_executes_no_guard
    (target : String) (lr : Except Unit (List HealthCheck))
    (s e n : Nat) (st : Store)
    (h : verify_region_health target lr = true) :
    countExecuted (runTriggers target lr s e n st).2 = n ∧
    (runTriggers target lr s e n st).1 = st := by
  induction n generalizing st with
  | zero => exact ⟨rfl, rfl⟩
  | succ k ih =>
    have hred : (initiate_failover target lr s e).redirectInvoked = true := by
      simp [initiate_failover, h]
    have hx := ih st
    constructor
    · simp only [runTriggers, initiate_failover_st, countExecuted,
        List.filter_cons, hred, if_true, List.length_cons]
      simpa [countExecuted] using hx.1
    · simpa only [runTriggers, initiate_failover_st] using hx.2

/-- Witness for C1 (amended) at the concrete healthy environment. -/
theorem C1_every_trigger_executes_witness :
    verify_region_health SECONDARY_REGION healthySecondaryEnv = true ∧
    countExecuted
      (runTriggers SECONDARY_REGION healthySecondaryEnv 0 0 2 emptyStore).2 = 2 ∧
    (runTriggers SECONDARY_REGION healthySecondaryEnv 0 0 2 emptyStore).1 =
      emptyStore :=
  ⟨by decide,
   (C1_every_trigger_executes_no_guard SECONDARY_REGION healthySecondaryEnv
      0 0 2 emptyStore (by decide)).1,
   (C1_every_trigger_executes_no_guard SECONDARY_REGION healthySecondaryEnv
      0 0 2 emptyStore (by decide)).2⟩

/-! ## Claim C2 — no redirect on a failed target verification -/

/-- C2: when `verify_region_health(target)` returns false,
`initiate_failover` raises before the redirect step — the traffic
change is never invoked, a `FAILOVER FAILED` message is published, and
the invocation ends in the failed outcome (no metric, no success
message, exception re-raised). -/
theorem C2_no_redirect_when_target_unhealthy
    (target : String) (lr : Except Unit (List HealthCheck)) (s e : Nat)
    (h : verify_region_health target lr = false) :
    (initiate_failover target lr s e).redirectInvoked = false ∧
    (initiate_failover target lr s e).failureMessage.isSome = true ∧
    (initiate_failover target lr s e).successNotified = false ∧
    (initiate_failover target lr s e).metricsLogged = false ∧
    (initiate_failover target lr s e).raised = true := by
  simp [initiate_failover, h]

/-- Witness for C2: with no health checks listed, the target verifies
unhealthy and the redirect is not invoked. -/
theorem C2_no_redirect_witness :
    verify_region_health SECONDARY_REGION (Except.ok []) = false ∧
    (initiate_failover SECONDARY_REGION (Except.ok []) 0 0).redirectInvoked = false ∧
    (initiate_failover SECONDARY_REGION (Except.ok []) 0 0).raised = true :=
  ⟨rfl,
   (C2_no_redirect_when_target_unhealthy SECONDARY_REGION (Except.ok []) 0 0 rfl).1,
   (C2_no_redirect_when_target_unhealthy SECONDARY_REGION (Except.ok []) 0 0
      rfl).2.2.2.2⟩

/-! ## Claim C10 — verification errors count as unhealthy -/

/-- C10: if `list_health_checks` raises, or `get_health_check_status`
raises while scanning the checks, `verify_region_health` returns
false, so a failover whose target health cannot be determined aborts
before any traffic mutation. -/
theorem C10_verification_errors_unhealthy
    (region : String) (lr : Except Unit (List HealthCheck)) (s e : Nat)
    (h : lr = Except.error () ∨
         ∃ hcs, lr = Except.ok hcs ∧ verifyLoop region hcs = Except.error ()) :
    verify_region_health region lr = false ∧
    (initiate_failover region lr s e).redirectInvoked = false ∧
    (initiate_failover region lr s e).raised = true := by
  have hv : verify_region_health region lr = false := by
    rcases h with h | ⟨hcs, rfl, hLoop⟩
    · rw [h]; rfl
    · simp [verify_region_health, hLoop]
  exact ⟨hv, by simp [initiate_failover, hv], by simp [initiate_failover, hv]⟩

/-- Witness for C10: a raising `list_health_checks` yields an
unhealthy verdict and no redirect. -/
theorem C10_verification_errors_witness :
    ((Except.error () : Except Unit (List HealthCheck)) = Except.error () ∨
      ∃ hcs, (Except.error () : Except Unit (List HealthCheck)) = Except.ok hcs ∧
        verifyLoop SECONDARY_REGION hcs = Except.error ()) ∧
    verify_region_health SECONDARY_REGION (Except.error ()) = false ∧
    (initiate_failover SECONDARY_REGION (Except.error ()) 0 0).redirectInvoked =
      false :=
  ⟨Or.inl rfl,
   (C10_verification_errors_unhealthy SECONDARY_REGION (Except.error ()) 0 0
      (Or.inl rfl)).1,
   (C10_verification_errors_unhealthy SECONDARY_REGION (Except.error ()) 0 0
      (Or.inl rfl)).2.1⟩

/-! ## Claim C3 — hysteresis in the health status derivation -/

/-- C3, as stated, is false of the source: the health checker keeps
no `RegionState` and no consecutive-failure count — each invocation
reports from its single sample, so after the samples
`[success, failure]` it already reports `unhealthy` (its failure
signal) with only one consecutive unsuccessful sample, not the
claimed three. -/
theorem C3_counterexample :
    ¬ (∀ (samples : List Bool) (i : Nat), i < samples.length →
        reportAt samples i = "unhealthy" → 3 ≤ consecFailsAt samples i) := by
  intro hclaim
  have h2 := hclaim [true, false] 1 (by decide) (by decide)
  have h3 : consecFailsAt [true, false] 1 = 1 := by decide
  omega

/-- C3 (amended): the health checker is stateless — each invocation
derives its report from the current sample alone, reporting `healthy`
iff the single DynamoDB probe succeeded and sending an alert iff it
failed; there is no consecutive-failure counter and no `N`/`M`
hysteresis. -/
theorem C3_status_from_single_sample
    (samples : List Bool) (i : Nat) (h : i < samples.length) :
    reportAt samples i =
      (if samples.getD i true = true then "healthy" else "unhealthy") ∧
    (health_handler (samples.getD i true) 0).alertSent =
      (!samples.getD i true) := by
  cases hb : samples.getD i true with
  | false =>
    constructor
    · unfold reportAt
      rw [hb]
      rfl
    · rfl
  | true =>
    constructor
    · unfold reportAt
      rw [hb]
      rfl
    · rfl

/-- Witness for C3 (amended) on the samples `[success, failure]`. -/
theorem C3_status_from_single_sample_witness :
    1 < ([true, false] : List Bool).length ∧
    (reportAt [true, false] 1 =
      (if ([true, false] : List Bool).getD 1 true = true
        then "healthy" else "unhealthy") ∧
     (health_handler (([true, false] : List Bool).getD 1 true) 0).alertSent =
       (!([true, false] : List Bool).getD 1 true)) :=
  ⟨by decide, C3_status_from_single_sample [true, false] 1 (by decide)⟩

/-! ## Claim C4 — exception handling after failover start -/

/-- C4, as stated, is false of the source: on the concrete alarm for
the primary region with an empty health-check listing, the failover
raises (after starting), yet the lambda `handler` catches the
exception and returns a `statusCode 500` response — nothing propagates
to the external scheduler, contrary to the claimed re-raise. -/
theorem C4_counterexample :
    (handle_alarm (Except.ok []) 0 0 alarmPrimaryDown).failover =
      some (initiate_failover SECONDARY_REGION (Except.ok []) 0 0) ∧
    (initiate_failover SECONDARY_REGION (Except.ok []) 0 0).raised = true ∧
    (orchestrator_handler (Except.ok []) 0 0 alarmPrimaryDown).propagated = false ∧
    (orchestrator_handler (Except.ok []) 0 0 alarmPrimaryDown).statusCode = 500 := by
  decide

/-- C4 (amended): when the failover raises after starting, a failure
message containing the causing error is published and
`initiate_failover` re-raises, but the top-level `handler` catches the
exception and answers `statusCode 500` — the exception does not
propagate to the external scheduler, and no `FailoverEvent` outcome is
recorded (no such record exists in the source). -/
theorem C4_failure_notified_but_swallowed
    (lr : Except Unit (List HealthCheck)) (s e : Nat) (a : Alarm)
    (hA : a.newState = "ALARM") (hR : a.region = PRIMARY_REGION)
    (h : verify_region_health SECONDARY_REGION lr = false) :
    (handle_alarm lr s e a).failover =
      some (initiate_failover SECONDARY_REGION lr s e) ∧
    (initiate_failover SECONDARY_REGION lr s e).raised = true ∧
    (initiate_failover SECONDARY_REGION lr s e).failureMessage =
      some ("Failover failed: " ++ unhealthyTargetError SECONDARY_REGION) ∧
    strIn (unhealthyTargetError SECONDARY_REGION)
      ("Failover failed: " ++ unhealthyTargetError SECONDARY_REGION) = true ∧
    orchestrator_handler lr s e a = { statusCode := 500, propagated := false } := by
  have h1 : (handle_alarm lr s e a).failover =
      some (initiate_failover SECONDARY_REGION lr s e) := by
    simp [handle_alarm, hA, hR]
  refine ⟨h1, by simp [initiate_failover, h], by simp [initiate_failover, h],
    strIn_append_right "Failover failed: " (unhealthyTargetError SECONDARY_REGION),
    ?_⟩
  have h2 : (initiate_failover SECONDARY_REGION lr s e).raised = true := by
    simp [initiate_failover, h]
  simp [orchestrator_handler, h1, h2]

/-- Witness for C4 (amended) at the concrete alarm and empty
health-check listing. -/
theorem C4_failure_swallowed_witness :
    (alarmPrimaryDown.newState = "ALARM" ∧
      alarmPrimaryDown.region = PRIMARY_REGION ∧
      verify_region_health SECONDARY_REGION (Except.ok []) = false) ∧
    orchestrator_handler (Except.ok []) 0 0 alarmPrimaryDown =
      { statusCode := 500, propagated := false } :=
  ⟨⟨rfl, rfl, rfl⟩,
   (C4_failure_notified_but_swallowed (Except.ok []) 0 0 alarmPrimaryDown
      rfl rfl rfl).2.2.2.2⟩

/-! ## Replication-lag probe lemmas -/

theorem lagLoop_deleted (visible : Nat → Bool) (clock : Nat → Int) (wt : Int) :
    ∀ (fuel attempt : Nat),
      (lagLoop visible clock wt attempt fuel).deletedPrimary = true ∧
      (lagLoop visible clock wt attempt fuel).deletedSecondary = true := by
  intro fuel
  induction fuel with
  | zero => intro a; exact ⟨rfl, rfl⟩
  | succ k ih =>
    intro a
    by_cases hv : visible a = true
    · simp [lagLoop, hv]
    · have hb : visible a = false := by simpa using hv
      simpa [lagLoop, hb] using ih (a + 1)

theorem lagLoop_lag_spec (visible : Nat → Bool) (clock : Nat → Int) (wt : Int) :
    ∀ (fuel attempt : Nat),
      ((lagLoop visible clock wt attempt fuel).status = LagStatus.success →
        ∃ a, visible a = true ∧
          (lagLoop visible clock wt attempt fuel).lag_ms = some (clock a - wt)) ∧
      ((lagLoop visible clock wt attempt fuel).status = LagStatus.timeout →
        (lagLoop visible clock wt attempt fuel).lag_ms = none) := by
  intro fuel
  induction fuel with
  | zero =>
    intro a
    constructor
    · intro hs; exact absurd hs (by simp [lagLoop])
    · intro _; rfl
  | succ k ih =>
    intro a
    by_cases hv : visible a = true
    · constructor
      · intro _; exact ⟨a, hv, by simp [lagLoop, hv]⟩
      · intro hs; simp [lagLoop, hv] at hs
    · have hb : visible a = false := by simpa using hv
      have hrec := ih (a + 1)
      constructor
      · intro hs
        have hs2 : (lagLoop visible clock wt (a + 1) k).status = LagStatus.success := by
          simpa [lagLoop, hb] using hs
        obtain ⟨x, hx1, hx2⟩ := hrec.1 hs2
        exact ⟨x, hx1, by simpa [lagLoop, hb] using hx2⟩
      · intro hs
        have hs2 : (lagLoop visible clock wt (a + 1) k).status = LagStatus.timeout := by
          simpa [lagLoop, hb] using hs
        simpa [lagLoop, hb] using hrec.2 hs2

theorem lagLoop_reads_le (visible : Nat → Bool) (clock : Nat → Int) (wt : Int) :
    ∀ (fuel attempt : Nat), (lagLoop visible clock wt attempt fuel).reads ≤ fuel := by
  intro fuel
  induction fuel with
  | zero => intro a; exact Nat.le_refl 0
  | succ k ih =>
    intro a
    by_cases hv : visible a = true
    · simp [lagLoop, hv]
    · have hb : visible a = false := by simpa using hv
      have hk := ih (a + 1)
      simp only [lagLoop, hb]
      simp only [Bool.false_eq_true, if_false]
      omega

theorem lagLoop_timeout_iff (visible : Nat → Bool) (clock : Nat → Int) (wt : Int) :
    ∀ (fuel attempt : Nat),
      ((lagLoop visible clock wt attempt fuel).status = LagStatus.timeout ↔
        ∀ k, k < fuel → visible (attempt + k) = false) := by
  intro fuel
  induction fuel with
  | zero =>
    intro a
    constructor
    · intro _ k hk; exact absurd hk (Nat.not_lt_zero k)
    · intro _; rfl
  | succ n ih =>
    intro a
    by_cases hv : visible a = true
    · constructor
      · intro hs; exact absurd hs (by simp [lagLoop, hv])
      · intro hall
        have h0 := hall 0 (Nat.succ_pos n)
        rw [Nat.add_zero, hv] at h0
        cases h0
    · have hb : visible a = false := by simpa using hv
      have hrec := ih (a + 1)
      constructor
      · intro hs k hk
        have hs2 : (lagLoop visible clock wt (a + 1) n).status = LagStatus.timeout := by
          simpa [lagLoop, hb] using hs
        cases k with
        | zero => simpa using hb
        | succ j =>
          have hj : j < n := by omega
          have hres := hrec.mp hs2 j hj
          have he : a + 1 + j = a + (j + 1) := by omega
          rw [he] at hres
          exact hres
      · intro hall
        have hshift : ∀ k, k < n → visible (a + 1 + k) = false := by
          intro k hk
          have he : a + 1 + k = a + (k + 1) := by omega
          rw [he]
          exact hall (k + 1) (by omega)
        simpa [lagLoop, hb] using hrec.mpr hshift

/-! ## Claim C5 — marker cleanup on every probe outcome -/

/-- C5: every replication-lag probe, whether it ends in success or in
timeout, deletes the marker record from both the primary and the
secondary region before returning (the timeout tail of the loop is
modelled from the spec, the source file being truncated there). -/
theorem C5_cleanup_on_every_outcome
    (visible : Nat → Bool) (clock : Nat → Int) (writeTime : Int) :
    (check_replication_lag visible clock writeTime).deletedPrimary = true ∧
    (check_replication_lag visible clock writeTime).deletedSecondary = true :=
  lagLoop_deleted visible clock writeTime max_attempts 0

/-! ## Claim C6 — lag is observation time minus write time, never negative -/

/-- C6: a probe that observes the marker reports
`lag_ms = clock(observation) - writeTime`, which is non-negative
whenever the wall clock never reads below the write timestamp; a probe
that times out reports no lag value at all. -/
theorem C6_lag_nonneg_timeout_no_lag
    (visible : Nat → Bool) (clock : Nat → Int) (writeTime : Int)
    (hmono : ∀ a, writeTime ≤ clock a) :
    ((check_replication_lag visible clock writeTime).status = LagStatus.success →
      ∃ a, visible a = true ∧
        (check_replication_lag visible clock writeTime).lag_ms =
          some (clock a - writeTime) ∧
        0 ≤ clock a - writeTime) ∧
    ((check_replication_lag visible clock writeTime).status = LagStatus.timeout →
      (check_replication_lag visible clock writeTime).lag_ms = none) := by
  have hspec := lagLoop_lag_spec visible clock writeTime max_attempts 0
  constructor
  · intro hs
    obtain ⟨a, ha, hl⟩ := hspec.1 hs
    have hm := hmono a
    exact ⟨a, ha, hl, by omega⟩
  · exact hspec.2

/-- Witness for C6: constant 1500 ms clock, marker visible at once,
write timestamp 0. -/
theorem C6_lag_nonneg_witness :
    (∀ a, (0 : Int) ≤ constClock a) ∧
    (((check_replication_lag alwaysVisible constClock 0).status =
        LagStatus.success →
      ∃ a, alwaysVisible a = true ∧
        (check_replication_lag alwaysVisible constClock 0).lag_ms =
          some (constClock a - 0) ∧
        0 ≤ constClock a - 0) ∧
     ((check_replication_lag alwaysVisible constClock 0).status =
        LagStatus.timeout →
      (check_replication_lag alwaysVisible constClock 0).lag_ms = none)) :=
  ⟨fun a => by norm_num [constClock],
   C6_lag_nonneg_timeout_no_lag alwaysVisible constClock 0
     (fun a => by norm_num [constClock])⟩

/-! ## Claim C7 — three-level overall status -/

/-- C7: the overall status is exactly one of `healthy`, `degraded`,
`critical`, and is `critical` iff an unresolved DIVERGED conflict
exists, `healthy` iff there is none and the lag probe succeeded under
the 5000 ms threshold, and `degraded` in the remaining cases
(aggregation modelled from the spec, the source file being truncated
before `determine_overall_status`). -/
theorem C7_three_level_status
    (ls : LagStatus) (lag : Option Int) (d : Nat) :
    (determine_overall_status ls lag d = OverallStatus.critical ∨
     determine_overall_status ls lag d = OverallStatus.healthy ∨
     determine_overall_status ls lag d = OverallStatus.degraded) ∧
    (determine_overall_status ls lag d = OverallStatus.critical ↔ 0 < d) ∧
    (determine_overall_status ls lag d = OverallStatus.healthy ↔
      d = 0 ∧ ls = LagStatus.success ∧ lagUnderThreshold lag = true) ∧
    (determine_overall_status ls lag d = OverallStatus.degraded ↔
      d = 0 ∧ ¬(ls = LagStatus.success ∧ lagUnderThreshold lag = true)) := by
  unfold determine_overall_status
  split_ifs with h1 h2
  · refine ⟨Or.inl rfl, ?_, ?_, ?_⟩ <;> simp_all <;> omega
  · refine ⟨Or.inr (Or.inl rfl), ?_, ?_, ?_⟩ <;> simp_all
  · refine ⟨Or.inr (Or.inr rfl), ?_, ?_, ?_⟩ <;> simp_all

/-! ## Claim C8 — the polling loop is bounded -/

/-- C8: the probe performs at most `max_attempts = 10`
strongly-consistent reads and always returns, either with `success`
(iff some attempt below the bound observes the marker) or with
`timeout` (iff none does) — no unbounded waiting. -/
theorem C8_poll_loop_bounded
    (visible : Nat → Bool) (clock : Nat → Int) (writeTime : Int) :
    (check_replication_lag visible clock writeTime).reads ≤ max_attempts ∧
    ((check_replication_lag visible clock writeTime).status = LagStatus.success ∨
     (check_replication_lag visible clock writeTime).status = LagStatus.timeout) ∧
    ((check_replication_lag visible clock writeTime).status = LagStatus.timeout ↔
      ∀ k, k < max_attempts → visible k = false) := by
  refine ⟨lagLoop_reads_le visible clock writeTime max_attempts 0, ?_, ?_⟩
  · cases hs : (check_replication_lag visible clock writeTime).status
    · exact Or.inl rfl
    · exact Or.inr rfl
  · have h := lagLoop_timeout_iff visible clock writeTime max_attempts 0
    simpa [check_replication_lag] using h

/-! ## Claim C9 — the health endpoint contract -/

/-- C9, as stated, is false of the source: the router parses the
request body before looking at the path, so a `/health` request whose
body string fails JSON parsing lands in the `except` branch and gets
`statusCode 500`, not 200. -/
theorem C9_counterexample :
    ¬ (∀ (env : CrudEnv) (ev : RouterEvent), ev.path = "/health" →
        (traffic_handler env ev).statusCode = 200 ∧
        (traffic_handler env ev).bodyFields = ["status", "region", "timestamp"]) := by
  intro hclaim
  have h1 := (hclaim dummyCrud malformedHealthEvent rfl).1
  exact absurd h1 (by decide)

/-- C9 (amended): every request for path `/health` whose body, when
present, does not fail JSON parsing is answered with status 200 and a
body holding exactly the fields `status`, `region`, `timestamp`. -/
theorem C9_health_endpoint_contract
    (env : CrudEnv) (ev : RouterEvent)
    (hp : ev.path = "/health") (hb : ev.body ≠ some BodyParse.malformed) :
    traffic_handler env ev = health_check_response ∧
    (traffic_handler env ev).statusCode = 200 ∧
    (traffic_handler env ev).bodyFields = ["status", "region", "timestamp"] := by
  have hmain : traffic_handler env ev = health_check_response := by
    cases hbody : ev.body with
    | none => simp [traffic_handler, hbody, hp]
    | some b =>
      cases b with
      | ok => simp [traffic_handler, hbody, hp]
      | malformed => exact absurd hbody hb
  exact ⟨hmain, by rw [hmain]; rfl, by rw [hmain]; rfl⟩

/-- Witness for C9 (amended) on a body-less health request. -/
theorem C9_health_endpoint_witness :
    (healthEvent.path = "/health" ∧
      healthEvent.body ≠ some BodyParse.malformed) ∧
    traffic_handler dummyCrud healthEvent = health_check_response :=
  ⟨⟨rfl, by decide⟩,
   (C9_health_endpoint_contract dummyCrud healthEvent rfl (by decide)).1⟩

end DR
